import Mathlib

/-!
Shallow embedding of the Alazar ATS9462 acquisition pipeline and of the
LeCroy oscilloscope curve-read logic of this repository, together with
proofs checking the natural-language specification against the code.

Numeric conventions: Python/numpy float arithmetic is modelled over `ℚ`
where the code only performs field operations, and over `ℝ` where
transcendental functions (cos, sin, sqrt, arctan) appear.  Numpy arrays
are modelled as functions from indices (`ℕ → ·`); fallible Python code
is modelled in the `Except` monad with an explicit exception kind type.
-/

namespace Qcodes

/-- Kinds of Python exceptions raised by the code under study.  `exception`
carries the message of a generic `Exception(...)`. -/
inductive PyErr where
  | exception (msg : String) : PyErr
  | typeError : PyErr
  | valueError : PyErr
  | notImplementedError : PyErr
  | visaIOError : PyErr
  deriving DecidableEq

/-- Whether an `Except` computation ended in a raised exception. -/
def exceptIsError {ε α : Type _} : Except ε α → Bool
  | .error _ => true
  | .ok _ => false

/-- Whether an `Except` computation returned normally. -/
def exceptIsOk {ε α : Type _} : Except ε α → Bool
  | .error _ => false
  | .ok _ => true

/-! ## acq_helpers.py -/

/-- numpy `right_shift` on a (signed) integer: arithmetic right shift,
i.e. floor division by `2 ^ k`. -/
def np_right_shift (x : ℤ) (k : ℕ) : ℤ := x >>> k

/-- Embeds `acq_helpers.sample_to_volt_u12` applied to an integer sample
(the function is elementwise on arrays): right-shifts the 16-bit stored
sample by 4, then maps through the Alazar calibration affine map with
`code_zero = code_range = (1 <<< (bps - 1)) - 0.5`. -/
def sample_to_volt_u12 (raw_samples : ℤ) (input_range_volts : ℚ) (bps : ℕ) : ℚ :=
  let shifted_samples : ℤ := np_right_shift raw_samples 4
  let code_zero : ℚ := (2 ^ (bps - 1) : ℚ) - 1/2
  let code_range : ℚ := (2 ^ (bps - 1) : ℚ) - 1/2
  input_range_volts * ((shifted_samples : ℚ) - code_zero) / code_range

/-- Embeds `acq_helpers.sample_to_volt_u16` applied to one (float) sample:
no shift, same affine calibration map. -/
def sample_to_volt_u16 (raw_samples : ℚ) (input_range_volts : ℚ) (bps : ℕ) : ℚ :=
  let code_zero : ℚ := (2 ^ (bps - 1) : ℚ) - 1/2
  let code_range : ℚ := (2 ^ (bps - 1) : ℚ) - 1/2
  input_range_volts * (raw_samples - code_zero) / code_range

/-- Embeds `acq_helpers.roundup`: `num if num % to_nearest == 0 else
num + to_nearest - num % to_nearest` (both arguments non-negative ints,
as in the claim). -/
def roundup (num to_nearest : ℕ) : ℕ :=
  let remainder := num % to_nearest
  if remainder = 0 then num else num + to_nearest - remainder

/-- Embeds `acq_helpers.filter_ls`: the body is a bare
`raise NotImplementedError` for every input. -/
def filter_ls (rec : ℕ → ℝ) (cutoff sample_rate : ℝ) (numtaps : ℕ) :
    Except PyErr (ℕ → ℝ) :=
  .error .notImplementedError

/-- scipy `lfilter(b, 1.0, x)`: a causal FIR filter with zero initial
state, `y n = ∑ k < len b, b k * x (n - k)` over the taps with `k ≤ n`. -/
noncomputable def lfilter (b : List ℝ) (x : ℕ → ℝ) : ℕ → ℝ :=
  fun n => ∑ k ∈ Finset.range b.length, if k ≤ n then b.getD k 0 * x (n - k) else 0

/-- Embeds `acq_helpers.filter_win`.  The FIR coefficients come from
`scipy.signal.firwin(numtaps, cutoff / nyq_rate)`; scipy is an external
dependency, so the coefficient generator is an explicit parameter
`firwin` of the embedding. -/
noncomputable def filter_win (firwin : ℕ → ℝ → List ℝ) (rec : ℕ → ℝ)
    (cutoff sample_rate : ℝ) (numtaps : ℕ) : ℕ → ℝ :=
  let nyq_rate := sample_rate / 2
  let fir_coef := firwin numtaps (cutoff / nyq_rate)
  lfilter fir_coef rec

/-! ## Alazar instrument state and acquisition controller states

The Alazar board itself (class `AlazarTech_ATS`, vendor DLL) is external;
the controllers only read its live parameter values, collected here. -/

/-- Live values read from the Alazar instrument by the controllers:
`samples_per_record.get()`, `get_sample_rate()`, `records_per_buffer.get()`,
`buffers_per_acquisition.get()`, `get_idn()['bits_per_sample']` and the
channel range parameter values. -/
structure AlazarState where
  samples_per_record : ℕ
  sample_rate : ℚ
  records_per_buffer : ℕ
  buffers_per_acquisition : ℕ
  bits_per_sample : ℕ
  channel_range1 : ℚ
  channel_range2 : ℚ

/-- numpy `uint16(x)` applied to a float: truncation toward zero followed
by the unsigned 16-bit cast (wrap modulo `2 ^ 16`). -/
def np_uint16_of_rat (q : ℚ) : ℕ := ((Int.tdiv q.num q.den) % 65536).toNat

/-- The constant `self.number_of_channels = 2` set by every controller. -/
def number_of_channels : ℕ := 2

/-- Embeds `handle_buffer` (identical in all three controllers):
`self.buffer += data`, elementwise addition into the accumulator. -/
def handle_buffer (buffer data : ℕ → ℚ) : ℕ → ℚ := fun i => buffer i + data i

/-- Embeds the channel-A record computation of
`HD_Samples_Controller.post_acquire`: the accumulator is de-interleaved
with stride `number_of_channels` (slice `buffer[i0:i1:number_of_channels]`
with `i0 = i * samples_per_record * number_of_channels`), the
`records_per_buffer` records are summed, the sum is divided by
`records_per_acquisition = buffers_per_acquisition * records_per_buffer`
and cast through `np.uint16`. -/
def hd_recordA (spr rpb bpa : ℕ) (buffer : ℕ → ℚ) : ℕ → ℕ :=
  fun j =>
    let records_per_acquisition : ℚ := ((bpa * rpb : ℕ) : ℚ)
    let recA : ℚ :=
      ∑ i ∈ Finset.range rpb, buffer (i * spr * number_of_channels + number_of_channels * j)
    np_uint16_of_rat (recA / records_per_acquisition)

/-- The per-sample average over all records and buffers of channel A, as
the specification describes it: the total of the channel-A sample `j` over
every record of every filled buffer, divided by (number of buffers ×
records per buffer), cast to uint16. -/
def chanA_per_sample_average (spr rpb : ℕ) (datas : List (ℕ → ℚ)) (j : ℕ) : ℕ :=
  let total : ℚ :=
    (datas.map (fun d =>
      ∑ i ∈ Finset.range rpb, d (i * spr * number_of_channels + number_of_channels * j))).sum
  np_uint16_of_rat (total / ((datas.length * rpb : ℕ) : ℚ))

/-! ## HD_Samples_Controller (samp_controller.py) -/

/-- The `HD_Samples_Controller` attributes before capture:
`samples_per_record` and `sample_rate` start as `None` (hence `Option`),
the `demod_freq_{i}` parameters start as `None` and may be set to
frequencies, `filter_settings` holds the filter code (`'win' ↦ 0`,
`'ls' ↦ 1`) and `numtaps`, and `int_time` / `int_delay` are
`AcqVariablesParam`s (initially `None`). -/
structure HDController where
  samples_per_record : Option ℕ
  sample_rate : Option ℚ
  demod_freq_params : List (Option ℚ)
  filterTy : ℕ
  numtaps : ℕ
  int_time : Option ℚ
  int_delay : Option ℚ
  chan_b : Bool
  demod_length : ℕ

/-- Embeds `get_demod_freqs`: `filter(None, [demod_freq_i() ...])` keeps
the truthy entries, i.e. drops both `None` and `0.0`. -/
def hd_get_demod_freqs (params : List (Option ℚ)) : List ℚ :=
  (params.filterMap id).filter (fun q => q ≠ 0)

/-- Embeds `get_max_demod_freq`: the maximum of the set demodulation
frequencies, or `None` when none are set. -/
def hd_get_max_demod_freq (params : List (Option ℚ)) : Option ℚ :=
  let freqs := hd_get_demod_freqs params
  if freqs.length > 0 then freqs.max? else none

/-- The `HD_Samples_Controller` state once `pre_start_capture` has
succeeded: all acquisition sizes are concrete, the accumulator `buffer`
is allocated and the software demodulation matrices are computed. -/
structure HDAcqState where
  samples_per_record : ℕ
  sample_rate : ℚ
  demod_freq_params : List (Option ℚ)
  filterTy : ℕ
  numtaps : ℕ
  int_time : Option ℚ
  int_delay : Option ℚ
  chan_b : Bool
  demod_length : ℕ
  records_per_buffer : ℕ
  buffers_per_acquisition : ℕ
  bits_per_sample : ℕ
  buffer : ℕ → ℚ
  cosMat : ℕ → ℕ → ℝ
  sinMat : ℕ → ℕ → ℝ

/-- Embeds `HD_Samples_Controller.pre_start_capture`: raises when the
cached `samples_per_record` differs from the instrument value, when the
cached `sample_rate` differs from the instrument value, or when no
demodulation frequencies are set; otherwise records the acquisition
sizes, allocates the zero accumulator buffer and builds the software
cosine/sine reference matrices
`angle_mat = 2π · outer(demod_freqs, arange(samples_per_record)) / sample_rate`.
An unset (`None`) cached value never equals a live value, matching the
comparison `self.samples_per_record != alazar.samples_per_record.get()`. -/
noncomputable def hd_pre_start_capture (c : HDController) (a : AlazarState) :
    Except PyErr HDAcqState :=
  if c.samples_per_record ≠ some a.samples_per_record then
    .error (.exception "acq controller samples per record does not match instrument value")
  else if c.sample_rate ≠ some a.sample_rate then
    .error (.exception "acq controller sample rate does not match instrument value")
  else
    let demod_freqs := hd_get_demod_freqs c.demod_freq_params
    if demod_freqs.length = 0 then
      .error (.exception "no demod_freqs set")
    else
      .ok { samples_per_record := a.samples_per_record
            sample_rate := a.sample_rate
            demod_freq_params := c.demod_freq_params
            filterTy := c.filterTy
            numtaps := c.numtaps
            int_time := c.int_time
            int_delay := c.int_delay
            chan_b := c.chan_b
            demod_length := c.demod_length
            records_per_buffer := a.records_per_buffer
            buffers_per_acquisition := a.buffers_per_acquisition
            bits_per_sample := a.bits_per_sample
            buffer := fun _ => 0
            cosMat := fun i j =>
              Real.cos (2 * Real.pi * (demod_freqs.getD i 0 : ℝ) * (j : ℝ) / (a.sample_rate : ℝ))
            sinMat := fun i j =>
              Real.sin (2 * Real.pi * (demod_freqs.getD i 0 : ℝ) * (j : ℝ) / (a.sample_rate : ℝ)) }

/-- numpy `mean` of the first `n` entries of a real-valued array. -/
noncomputable def np_mean_real (n : ℕ) (f : ℕ → ℝ) : ℝ := (∑ j ∈ Finset.range n, f j) / n

/-- numpy `mean` of the first `n` entries of the (rational) float model. -/
def np_mean_rat (n : ℕ) (f : ℕ → ℚ) : ℚ := (∑ j ∈ Finset.range n, f j) / n

/-- Python `int(x)` on a float: truncation toward zero. -/
def python_int (q : ℚ) : ℤ := Int.tdiv q.num q.den

/-- Embeds `acq_helpers.filter_ls` at its call sites: the record argument
is arbitrary (numpy is duck-typed) and the body is a bare
`raise NotImplementedError`. -/
def filter_ls_gen {α : Type _} (rec : α) (cutoff sample_rate : ℝ) (numtaps : ℕ) :
    Except PyErr α :=
  .error .notImplementedError

/-- Embeds `HD_Samples_Controller._fit`.  Control flow of the source:

* `bps == 12` branch calls `helpers.sample_to_volt_u12(rec, bps)`, which
  passes only 2 of the 3 required positional arguments of
  `sample_to_volt_u12(raw_samples, input_range_volts, bps)`, so Python
  raises `TypeError` before any conversion happens;
* otherwise `volt_rec = rec - np.mean(rec)` (centered raw samples);
* `volt_rec` is broadcast to `demod_length` rows and multiplied with the
  reference cosine/sine matrices;
* `cutoff = self.get_max_demod_freq() / 20` raises `TypeError` when no
  demodulation frequency is set (`None / 20`);
* filter code 0 (`'win'`) applies `filter_win` along axis 1, filter code
  1 (`'ls'`) calls `filter_ls` which raises `NotImplementedError`; the
  `filter_dict` only produces codes 0 and 1;
* the integration limits `int(int_delay * sample_rate)` shift the
  filtered rows (`TypeError` when `int_delay()`/`int_time()` is `None`),
  and magnitude/phase (`np.angle(·, deg=True)`) are returned. -/
noncomputable def hd_fit (firwin : ℕ → ℝ → List ℝ) (c : HDAcqState) (rec : ℕ → ℕ) :
    Except PyErr ((ℕ → ℕ → ℝ) × (ℕ → ℕ → ℝ)) :=
  if c.bits_per_sample = 12 then
    .error .typeError
  else
    let volt_rec : ℕ → ℝ := fun j =>
      (rec j : ℝ) - np_mean_real c.samples_per_record (fun k => (rec k : ℝ))
    let volt_rec_mat : ℕ → ℕ → ℝ := fun _ j => volt_rec j
    let re_mat : ℕ → ℕ → ℝ := fun i j => volt_rec_mat i j * c.cosMat i j
    let im_mat : ℕ → ℕ → ℝ := fun i j => volt_rec_mat i j * c.sinMat i j
    match hd_get_max_demod_freq c.demod_freq_params with
    | none => .error .typeError
    | some fmax =>
      let cutoff : ℚ := fmax / 20
      let filtered : Except PyErr ((ℕ → ℕ → ℝ) × (ℕ → ℕ → ℝ)) :=
        if c.filterTy = 0 then
          .ok (fun i => filter_win firwin (fun j => re_mat i j) (cutoff : ℝ)
                 (c.sample_rate : ℝ) c.numtaps,
               fun i => filter_win firwin (fun j => im_mat i j) (cutoff : ℝ)
                 (c.sample_rate : ℝ) c.numtaps)
        else if c.filterTy = 1 then
          match filter_ls_gen re_mat (cutoff : ℝ) (c.sample_rate : ℝ) c.numtaps with
          | .error e => .error e
          | .ok re_f =>
            match filter_ls_gen im_mat (cutoff : ℝ) (c.sample_rate : ℝ) c.numtaps with
            | .error e => .error e
            | .ok im_f => .ok (re_f, im_f)
        else
          .error (.exception "local variable re_filtered referenced before assignment")
      match filtered with
      | .error e => .error e
      | .ok (re_filtered, im_filtered) =>
        match c.int_delay, c.int_time with
        | some d, some t =>
          let beginning : ℕ := (python_int (d * c.sample_rate)).toNat
          let _end : ℕ := beginning + (python_int (t * c.sample_rate)).toNat
          let re_limited : ℕ → ℕ → ℝ := fun i j => re_filtered i (beginning + j)
          let im_limited : ℕ → ℕ → ℝ := fun i j => im_filtered i (beginning + j)
          let magnitude : ℕ → ℕ → ℝ := fun i j =>
            Complex.abs ⟨re_limited i j, im_limited i j⟩
          let phase : ℕ → ℕ → ℝ := fun i j =>
            Complex.arg ⟨re_limited i j, im_limited i j⟩ * 180 / Real.pi
          .ok (magnitude, phase)
        | _, _ => .error .typeError

/-- Embeds `HD_Samples_Controller.post_acquire`: splits the accumulated
buffer into channel-A records and averages them (`hd_recordA`), applies
the demodulation fit, then raises `NotImplementedError` when `chan_b`
was requested, and otherwise returns the magnitude and phase arrays. -/
noncomputable def hd_post_acquire (firwin : ℕ → ℝ → List ℝ) (c : HDAcqState) :
    Except PyErr ((ℕ → ℕ → ℝ) × (ℕ → ℕ → ℝ)) :=
  let recordA := hd_recordA c.samples_per_record c.records_per_buffer
    c.buffers_per_acquisition c.buffer
  match hd_fit firwin c recordA with
  | .error e => .error e
  | .ok fit =>
    if c.chan_b then
      .error .notImplementedError
    else
      .ok fit

/-! ## VNA_Acquisition_Controller (VNA_controller.py) -/

/-- The `VNA_Acquisition_Controller` attributes before capture: only the
cached `samples_per_record` matters to `pre_start_capture` (it is unset
until `update_acquisition_kwargs` is called, hence `Option`). -/
structure VNAController where
  samples_per_record : Option ℕ

/-- The `VNA_Acquisition_Controller` state once `pre_start_capture` has
succeeded. -/
structure VNACapture where
  samples_per_record : ℕ
  records_per_buffer : ℕ
  buffers_per_acquisition : ℕ
  bits_per_sample : ℕ
  buffer : ℕ → ℚ

/-- Embeds `VNA_Acquisition_Controller.pre_start_capture`: raises when
the cached `samples_per_record` differs from the instrument value, and
otherwise records the acquisition sizes and allocates the zero
accumulator buffer. -/
def vna_pre_start_capture (c : VNAController) (a : AlazarState) :
    Except PyErr VNACapture :=
  if c.samples_per_record ≠ some a.samples_per_record then
    .error (.exception "Instrument samples_per_record settings does not match acq controller value")
  else
    .ok { samples_per_record := a.samples_per_record
          records_per_buffer := a.records_per_buffer
          buffers_per_acquisition := a.buffers_per_acquisition
          bits_per_sample := a.bits_per_sample
          buffer := fun _ => 0 }

/-- Embeds `VNA_Acquisition_Controller.post_acquire`.  The averaged
records are float64 arrays (`np.zeros` plus float division), so:

* when `bps == 12`, the call `sample_to_volt_u12(recordA, ...)` applies
  `np.right_shift` to a float64 array and raises `TypeError` (and even
  absent that, its result would be overwritten: the following
  `if bps == 16: ... else: ...` is a separate `if` statement, not an
  `elif`, and its else branch reassigns the centered raw samples);
* when `bps == 16`, both channels are converted through
  `sample_to_volt_u16` with the instrument `channel_range1` value;
* otherwise the centered raw samples are returned. -/
def vna_post_acquire (c : VNACapture) (a : AlazarState) :
    Except PyErr ((ℕ → ℚ) × (ℕ → ℚ)) :=
  let records_per_acquisition : ℚ :=
    ((c.buffers_per_acquisition * c.records_per_buffer : ℕ) : ℚ)
  let recordA : ℕ → ℚ := fun j =>
    ∑ i ∈ Finset.range c.records_per_buffer,
      c.buffer (i * c.samples_per_record + j) / records_per_acquisition
  let bufLen := c.samples_per_record * c.records_per_buffer * number_of_channels
  let recordB : ℕ → ℚ := fun j =>
    ∑ i ∈ Finset.range c.records_per_buffer,
      c.buffer (i * c.samples_per_record + bufLen / 2 + j) / records_per_acquisition
  if c.bits_per_sample = 12 then
    .error .typeError
  else if c.bits_per_sample = 16 then
    .ok (fun j => sample_to_volt_u16 (recordA j) a.channel_range1 c.bits_per_sample,
         fun j => sample_to_volt_u16 (recordB j) a.channel_range1 c.bits_per_sample)
  else
    .ok (fun j => recordA j - np_mean_rat c.samples_per_record recordA,
         fun j => recordB j - np_mean_rat c.samples_per_record recordB)

/-! ## Reflectometry_Acquisition_Controller (fast_reflectometry_controller.py) -/

/-- The `Reflectometry_Acquisition_Controller` attributes before capture
(the cached `samples_per_record`, unset until
`update_acquisition_kwargs`). -/
structure ReflController where
  samples_per_record : Option ℕ

/-- The `Reflectometry_Acquisition_Controller` state once
`pre_start_capture` has succeeded. -/
structure ReflCapture where
  samples_per_record : ℕ
  records_per_buffer : ℕ
  buffers_per_acquisition : ℕ
  bits_per_sample : ℕ
  buffer : ℕ → ℚ

/-- Embeds `Reflectometry_Acquisition_Controller.pre_start_capture`:
identical check and setup to the VNA controller. -/
def refl_pre_start_capture (c : ReflController) (a : AlazarState) :
    Except PyErr ReflCapture :=
  if c.samples_per_record ≠ some a.samples_per_record then
    .error (.exception "Instrument samples_per_record settings does not match acq controller value")
  else
    .ok { samples_per_record := a.samples_per_record
          records_per_buffer := a.records_per_buffer
          buffers_per_acquisition := a.buffers_per_acquisition
          bits_per_sample := a.bits_per_sample
          buffer := fun _ => 0 }

/-! ## IQMagPhase.get (VNA_controller.py and fast_reflectometry_controller.py) -/

/-- numpy `average` of a list model of a 1-d array. -/
noncomputable def np_average (l : List ℝ) : ℝ := l.sum / l.length

/-- Embeds `IQMagPhase.get` of `fast_reflectometry_controller.py`: the
acquired channel arrays `I` and `Q` are combined elementwise into
`phase = arctan(Q / I) * 180 / π` and `mag = sqrt(I² + Q²)` and the
four-tuple `(I, Q, mag, phase)` is returned. -/
noncomputable def refl_IQMagPhase_get (I Q : ℕ → ℝ) :
    (ℕ → ℝ) × (ℕ → ℝ) × (ℕ → ℝ) × (ℕ → ℝ) :=
  let phase : ℕ → ℝ := fun n => Real.arctan (Q n / I n) * 180 / Real.pi
  let mag : ℕ → ℝ := fun n => Real.sqrt ((I n) ^ 2 + (Q n) ^ 2)
  (I, Q, mag, phase)

/-- Embeds `IQMagPhase.get` of `VNA_controller.py`: the acquired channel
arrays are first averaged over the integration time
(`I, Q = np.average(I), np.average(Q)`), then the same magnitude/phase
formulas are applied to the scalar averages. -/
noncomputable def vna_IQMagPhase_get (I Q : List ℝ) : ℝ × ℝ × ℝ × ℝ :=
  let Ia := np_average I
  let Qa := np_average Q
  let phase := Real.arctan (Qa / Ia) * 180 / Real.pi
  let mag := Real.sqrt (Ia ^ 2 + Qa ^ 2)
  (Ia, Qa, mag, phase)

/-- Magnitude of an I/Q pair as the specification states it:
`sqrt(I^2 + Q^2)`. -/
noncomputable def iq_magnitude_spec (i q : ℝ) : ℝ := Real.sqrt (i ^ 2 + q ^ 2)

/-- Phase in degrees of an I/Q pair as the specification states it:
`arctan(Q / I) * 180 / pi`. -/
noncomputable def iq_phase_deg_spec (i q : ℝ) : ℝ := Real.arctan (q / i) * 180 / Real.pi

/-! ## ATS9462.py channel range parameters -/

/-- Embeds the `byte_to_value_dict` of the `channel_range1` and
`channel_range2` parameters of `AlazarTech_ATS9462.__init__` (the same
dict literal is added for both channels in the `for i in ['1', '2']`
loop): `{0x6: 0.2, 0x7: 0.4, 0x9: 0.8, 0xB: 2., 0xC: 4., 0xE: 8,
0x12: 16}`, as a byte-code lookup. -/
def channel_range_byte_to_value (b : ℕ) : Option ℚ :=
  if b = 0x6 then some (2/10)
  else if b = 0x7 then some (4/10)
  else if b = 0x9 then some (8/10)
  else if b = 0xB then some 2
  else if b = 0xC then some 4
  else if b = 0xE then some 8
  else if b = 0x12 then some 16
  else none

/-! ## LeCroy_Oscilloscope.py: ScopeArray._curveasker and LCR.clear_message_queue

The VISA transport is modelled as a state carrying the handle timeout,
the queue of pending unread messages, an oracle giving the outcome of
each successive binary waveform query, a counter of queries issued so
far, and a log of commands written. -/

/-- State of the VISA handle and instrument as seen by the driver. -/
structure VisaState where
  timeout : ℕ
  queue : List String
  results : ℕ → Except PyErr (List ℤ)
  counter : ℕ
  writes : List String

/-- One `visa_handle.read()`: pops the next pending message, or fails
with `VisaIOError` when the queue is empty (timeout). -/
def visa_read (s : VisaState) : Except PyErr (String × VisaState) :=
  match s.queue with
  | [] => .error .visaIOError
  | m :: rest => .ok (m, { s with queue := rest })

/-- The read loop of `clear_message_queue`: keeps calling
`visa_handle.read()` until it raises `VisaIOError`, which is caught and
ends the loop.  Recursion is on the pending queue, which each successful
read shortens. -/
def clear_loop : List String → VisaState → VisaState
  | [], s => s
  | _ :: rest, s => clear_loop rest { s with queue := rest }

/-- Embeds `LCR.clear_message_queue`: saves the original timeout, sets
the timeout to 5000 ms, reads messages until a `VisaIOError` occurs, and
restores the original timeout afterwards. -/
def clear_message_queue (s : VisaState) : VisaState :=
  let original_timeout := s.timeout
  let s1 : VisaState := { s with timeout := 5000 }
  let s2 := clear_loop s1.queue s1
  { s2 with timeout := original_timeout }

/-- The binary waveform query command written by `_curveasker` for
channel `ch`: `'C{}:WAVEFORM? DAT1'.format(ch, ...)`. -/
def curve_cmd (ch : ℕ) : String := "C" ++ toString ch ++ ":WAVEFORM? DAT1"

/-- One `visa_handle.query_binary_values('C{ch}:WAVEFORM? DAT1', ...)`:
issues the command, consumes the next oracle outcome and advances the
query counter. -/
def query_binary_values (ch : ℕ) (s : VisaState) :
    Except PyErr (List ℤ) × VisaState :=
  (s.results s.counter,
   { s with counter := s.counter + 1, writes := s.writes ++ [curve_cmd ch] })

/-- Embeds `ScopeArray._curveasker`: clears sweeps, triggers
`average()`-many single acquisitions, performs the binary waveform
query; on `ValueError` flushes the message queue via
`clear_message_queue` and retries the identical query once (a failure of
the retry, or any non-`ValueError` failure of the first query,
propagates); on success writes `TRMD AUTO` and returns the values. -/
def curveasker (ch avg : ℕ) (s : VisaState) :
    Except PyErr (List ℤ) × VisaState :=
  let s0 : VisaState :=
    { s with writes := s.writes ++ ["CLSW"] ++
        (List.replicate avg ["TRMD SINGLE", "WAIT"]).flatten }
  let (r1, s1) := query_binary_values ch s0
  match r1 with
  | .ok v => (.ok v, { s1 with writes := s1.writes ++ ["TRMD AUTO"] })
  | .error e =>
    if e = .valueError then
      let s2 := clear_message_queue s1
      let (r2, s3) := query_binary_values ch s2
      match r2 with
      | .ok v => (.ok v, { s3 with writes := s3.writes ++ ["TRMD AUTO"] })
      | .error e2 => (.error e2, s3)
    else
      (.error e, s1)

/-! ## Theorems -/

/-- C2: for every integer raw sample value, `sample_to_volt_u12(raw,
input_range_volts, 12)` returns `input_range_volts * ((raw >> 4) -
2047.5) / 2047.5`; in particular the full 12-bit code range maps to
`± input_range_volts` (code 4095, stored as `4095 * 16`, gives
`+input_range_volts`, code 0 gives `-input_range_volts`). -/
theorem sample_to_volt_u12_formula (raw : ℤ) (input_range_volts : ℚ) :
    sample_to_volt_u12 raw input_range_volts 12 =
      input_range_volts * ((np_right_shift raw 4 : ℚ) - 4095/2) / (4095/2) ∧
    sample_to_volt_u12 (4095 * 16) input_range_volts 12 = input_range_volts ∧
    sample_to_volt_u12 0 input_range_volts 12 = -input_range_volts := by
  have hs : ((4095 * 16 : ℤ) >>> (4 : ℕ)) = (4095 : ℤ) := by decide
  have hz : ((0 : ℤ) >>> (4 : ℕ)) = (0 : ℤ) := by decide
  refine ⟨?_, ?_, ?_⟩
  · simp only [sample_to_volt_u12, np_right_shift]
    norm_num
  · simp only [sample_to_volt_u12, np_right_shift, hs]
    norm_num
  · simp only [sample_to_volt_u12, np_right_shift, hz]
    norm_num
    ring

/-- C9: the `channel_range` byte-to-value mapping of the ATS9462 driver
accepts exactly the byte codes 0x6, 0x7, 0x9, 0xB, 0xC, 0xE, 0x12, with
the voltage ranges 0.2, 0.4, 0.8, 2, 4, 8, 16 volts respectively. -/
theorem channel_range_mapping (b : ℕ) (v : ℚ) :
    channel_range_byte_to_value b = some v ↔
      (b = 0x6 ∧ v = 2/10) ∨ (b = 0x7 ∧ v = 4/10) ∨ (b = 0x9 ∧ v = 8/10) ∨
      (b = 0xB ∧ v = 2) ∨ (b = 0xC ∧ v = 4) ∨ (b = 0xE ∧ v = 8) ∨
      (b = 0x12 ∧ v = 16) := by
  unfold channel_range_byte_to_value
  split_ifs with h1 h2 h3 h4 h5 h6 h7 <;> simp_all [eq_comm]

/-- C10: for `num ≥ 0` and `to_nearest > 0` (naturals), `roundup` returns
the least multiple of `to_nearest` that is `≥ num`: it is a multiple, it
is `≥ num`, it differs from `num` by less than `to_nearest`, it equals
`num` exactly when `to_nearest` divides `num`, and it is below every
multiple of `to_nearest` that is `≥ num`. -/
theorem roundup_least_multiple (num to_nearest : ℕ) (h : 0 < to_nearest) :
    to_nearest ∣ roundup num to_nearest ∧
    num ≤ roundup num to_nearest ∧
    roundup num to_nearest - num < to_nearest ∧
    (roundup num to_nearest = num ↔ to_nearest ∣ num) ∧
    (∀ m, to_nearest ∣ m → num ≤ m → roundup num to_nearest ≤ m) := by
  have hmod := Nat.mod_lt num h
  have hdm := Nat.div_add_mod num to_nearest
  by_cases h0 : num % to_nearest = 0
  · have hd : to_nearest ∣ num := Nat.dvd_of_mod_eq_zero h0
    have hru : roundup num to_nearest = num := by simp [roundup, h0]
    rw [hru]
    exact ⟨hd, le_refl _, by omega, iff_of_true rfl hd, fun m _ hm => hm⟩
  · have hne : roundup num to_nearest = num + to_nearest - num % to_nearest := by
      simp [roundup, h0]
    have hval : roundup num to_nearest = to_nearest * (num / to_nearest) + to_nearest := by
      rw [hne]; omega
    refine ⟨⟨num / to_nearest + 1, by rw [hval, Nat.mul_add, Nat.mul_one]⟩,
      by omega, by omega, ?_, ?_⟩
    · constructor
      · intro heq; omega
      · intro hdvd
        obtain ⟨k, rfl⟩ := hdvd
        exact absurd (Nat.mul_mod_right to_nearest k) h0
    · intro m hdvd hm
      obtain ⟨k, rfl⟩ := hdvd
      have hk : num / to_nearest + 1 ≤ k := by
        by_contra hcon
        push_neg at hcon
        have hle : to_nearest * k ≤ to_nearest * (num / to_nearest) :=
          mul_le_mul_left' (by omega) to_nearest
        omega
      have hkk : to_nearest * (num / to_nearest + 1) ≤ to_nearest * k :=
        mul_le_mul_left' hk to_nearest
      rw [Nat.mul_add, Nat.mul_one] at hkk
      omega


/-- Witness for `roundup_least_multiple` at `num = 100`,
`to_nearest = 32` (the ATS9462 `samples_divisor`). -/
theorem roundup_least_multiple_witness :
    0 < 32 ∧
    (32 ∣ roundup 100 32 ∧ 100 ≤ roundup 100 32 ∧ roundup 100 32 - 100 < 32 ∧
     (roundup 100 32 = 100 ↔ 32 ∣ 100) ∧
     (∀ m, 32 ∣ m → 100 ≤ m → roundup 100 32 ≤ m)) :=
  ⟨by decide, roundup_least_multiple 100 32 (by decide)⟩

/-- C8: both `IQMagPhase.get` implementations return the four-tuple
`(I, Q, magnitude, phase)` with `magnitude = sqrt(I² + Q²)` and
`phase = arctan(Q / I) * 180 / π` (degrees); the reflectometry version
works elementwise on the acquired arrays, the VNA version first averages
`I` and `Q` over the integration time and applies the formulas to the
averages. -/
theorem iqmagphase_get_formulas :
    (∀ (I Q : ℕ → ℝ),
        (refl_IQMagPhase_get I Q).1 = I ∧
        (refl_IQMagPhase_get I Q).2.1 = Q ∧
        (∀ n, (refl_IQMagPhase_get I Q).2.2.1 n = iq_magnitude_spec (I n) (Q n)) ∧
        (∀ n, (refl_IQMagPhase_get I Q).2.2.2 n = iq_phase_deg_spec (I n) (Q n))) ∧
    (∀ (I Q : List ℝ),
        (vna_IQMagPhase_get I Q).1 = np_average I ∧
        (vna_IQMagPhase_get I Q).2.1 = np_average Q ∧
        (vna_IQMagPhase_get I Q).2.2.1 =
          iq_magnitude_spec (np_average I) (np_average Q) ∧
        (vna_IQMagPhase_get I Q).2.2.2 =
          iq_phase_deg_spec (np_average I) (np_average Q)) :=
  ⟨fun _ _ => ⟨rfl, rfl, fun _ => rfl, fun _ => rfl⟩,
   fun _ _ => ⟨rfl, rfl, rfl, rfl⟩⟩

/-- Folding `handle_buffer` over a list of incoming buffers accumulates,
at every index, the initial value plus the pointwise sum of the data. -/
theorem foldl_handle_buffer_apply (datas : List (ℕ → ℚ)) (buf : ℕ → ℚ) (i : ℕ) :
    (datas.foldl handle_buffer buf) i = buf i + (datas.map (fun d => d i)).sum := by
  induction datas generalizing buf with
  | nil => simp
  | cons d ds ih =>
    simp only [List.foldl_cons, List.map_cons, List.sum_cons, ih, handle_buffer]
    ring

/-- A finite sum of list sums commutes with summing the lists first. -/
theorem sum_range_list_sum {α : Type _} (l : List α) (f : α → ℕ → ℚ) (n : ℕ) :
    ∑ i ∈ Finset.range n, (l.map (fun a => f a i)).sum
      = (l.map (fun a => ∑ i ∈ Finset.range n, f a i)).sum := by
  induction l with
  | nil => simp
  | cons a l ih => simp [Finset.sum_add_distrib, ih]

/-- C1: after an acquisition in which every filled buffer is passed to
`handle_buffer` (elementwise addition into the zero accumulator
allocated by `pre_start_capture`), the channel-A record computed by
`post_acquire` — de-interleave with stride `number_of_channels`, sum the
`records_per_buffer` records, divide by `buffers_per_acquisition *
records_per_buffer` and cast to uint16 — equals the per-sample average
over all records and buffers of channel A. -/
theorem hd_recordA_is_per_sample_average (spr rpb bpa j : ℕ)
    (datas : List (ℕ → ℚ)) (hlen : datas.length = bpa) :
    hd_recordA spr rpb bpa (datas.foldl handle_buffer (fun _ => 0)) j
      = chanA_per_sample_average spr rpb datas j := by
  subst hlen
  have h1 : ∀ i, (datas.foldl handle_buffer (fun _ => 0)) i
      = (datas.map (fun d => d i)).sum := fun i => by
    simpa using foldl_handle_buffer_apply datas (fun _ => 0) i
  simp only [hd_recordA, chanA_per_sample_average, h1]
  rw [sum_range_list_sum]

/-- Witness for `hd_recordA_is_per_sample_average`: one buffer of one
record of two samples per record. -/
theorem hd_recordA_is_per_sample_average_witness :
    ([fun i => (i : ℚ)] : List (ℕ → ℚ)).length = 1 ∧
    hd_recordA 2 1 1 (([fun i => (i : ℚ)] : List (ℕ → ℚ)).foldl handle_buffer
        (fun _ => 0)) 1
      = chanA_per_sample_average 2 1 ([fun i => (i : ℚ)] : List (ℕ → ℚ)) 1 :=
  ⟨rfl, hd_recordA_is_per_sample_average 2 1 1 1 _ rfl⟩

/-- C3: each controller's `pre_start_capture` raises exactly when its
cached configuration disagrees with the live instrument values — for the
VNA and reflectometry controllers a `samples_per_record` mismatch, for
the `HD_Samples_Controller` additionally a `sample_rate` mismatch or an
empty demodulation frequency list — and, the embedding returning
`Except`, no capture state (buffer allocation) is produced in the error
cases. -/
theorem pre_start_capture_raises_on_mismatch :
    (∀ (c : VNAController) (a : AlazarState),
        exceptIsError (vna_pre_start_capture c a) = true ↔
          c.samples_per_record ≠ some a.samples_per_record) ∧
    (∀ (c : ReflController) (a : AlazarState),
        exceptIsError (refl_pre_start_capture c a) = true ↔
          c.samples_per_record ≠ some a.samples_per_record) ∧
    (∀ (c : HDController) (a : AlazarState),
        exceptIsError (hd_pre_start_capture c a) = true ↔
          (c.samples_per_record ≠ some a.samples_per_record ∨
           c.sample_rate ≠ some a.sample_rate ∨
           hd_get_demod_freqs c.demod_freq_params = [])) := by
  refine ⟨fun c a => ?_, fun c a => ?_, fun c a => ?_⟩
  · unfold vna_pre_start_capture
    split_ifs with h <;> simp [exceptIsError, h]
  · unfold refl_pre_start_capture
    split_ifs with h <;> simp [exceptIsError, h]
  · unfold hd_pre_start_capture
    by_cases h1 : c.samples_per_record ≠ some a.samples_per_record
    · simp [exceptIsError, h1]
    · by_cases h2 : c.sample_rate ≠ some a.sample_rate
      · simp [exceptIsError, h1, h2]
      · by_cases h3 : (hd_get_demod_freqs c.demod_freq_params).length = 0
        · simp [exceptIsError, h1, h2, ← List.length_eq_zero, h3]
        · simp [exceptIsError, h1, h2, ← List.length_eq_zero, h3]

/-- The read loop of `clear_message_queue` touches nothing but the
pending message queue. -/
theorem clear_loop_preserves (q : List String) (s : VisaState) :
    (clear_loop q s).timeout = s.timeout ∧ (clear_loop q s).counter = s.counter ∧
    (clear_loop q s).results = s.results ∧ (clear_loop q s).writes = s.writes := by
  induction q generalizing s with
  | nil => exact ⟨rfl, rfl, rfl, rfl⟩
  | cons m rest ih => simpa [clear_loop] using ih { s with queue := rest }

/-- The read loop of `clear_message_queue`, started on the pending
queue, reads every message: the queue ends empty. -/
theorem clear_loop_empties (q : List String) (s : VisaState) (hq : s.queue = q) :
    (clear_loop q s).queue = [] := by
  induction q generalizing s with
  | nil => simpa [clear_loop] using hq
  | cons m rest ih => simpa [clear_loop] using ih { s with queue := rest } rfl

@[simp]
theorem clear_message_queue_queue (s : VisaState) :
    (clear_message_queue s).queue = [] := by
  simpa [clear_message_queue] using
    clear_loop_empties s.queue { s with timeout := 5000 } rfl

@[simp]
theorem clear_message_queue_timeout (s : VisaState) :
    (clear_message_queue s).timeout = s.timeout := by
  simp [clear_message_queue]

@[simp]
theorem clear_message_queue_counter (s : VisaState) :
    (clear_message_queue s).counter = s.counter := by
  simpa [clear_message_queue] using
    (clear_loop_preserves s.queue { s with timeout := 5000 }).2.1

@[simp]
theorem clear_message_queue_results (s : VisaState) :
    (clear_message_queue s).results = s.results := by
  simpa [clear_message_queue] using
    (clear_loop_preserves s.queue { s with timeout := 5000 }).2.2.1

@[simp]
theorem clear_message_queue_writes (s : VisaState) :
    (clear_message_queue s).writes = s.writes := by
  simpa [clear_message_queue] using
    (clear_loop_preserves s.queue { s with timeout := 5000 }).2.2.2

/-- C4: `clear_message_queue` reads the whole pending queue until the
`VisaIOError` and restores the original timeout; when the first binary
waveform query of `_curveasker` succeeds it is never retried (exactly
one query is issued); when it raises `ValueError` the queue is flushed
(timeout restored) and the identical query command is issued exactly
once more, whose outcome becomes the result. -/
theorem curveasker_retries_once_on_valueerror :
    (∀ s : VisaState,
        (clear_message_queue s).queue = [] ∧
        (clear_message_queue s).timeout = s.timeout ∧
        (clear_message_queue s).counter = s.counter ∧
        (clear_message_queue s).results = s.results) ∧
    (∀ (ch avg : ℕ) (s : VisaState) (v : List ℤ),
        s.results s.counter = .ok v →
          (curveasker ch avg s).1 = .ok v ∧
          (curveasker ch avg s).2.counter = s.counter + 1 ∧
          (curveasker ch avg s).2.writes =
            s.writes ++ ["CLSW"] ++
              (List.replicate avg ["TRMD SINGLE", "WAIT"]).flatten ++
              [curve_cmd ch] ++ ["TRMD AUTO"]) ∧
    (∀ (ch avg : ℕ) (s : VisaState),
        s.results s.counter = .error .valueError →
          (curveasker ch avg s).2.counter = s.counter + 2 ∧
          (curveasker ch avg s).2.queue = [] ∧
          (curveasker ch avg s).2.timeout = s.timeout ∧
          (match s.results (s.counter + 1) with
           | .ok v =>
              (curveasker ch avg s).1 = .ok v ∧
              (curveasker ch avg s).2.writes =
                s.writes ++ ["CLSW"] ++
                  (List.replicate avg ["TRMD SINGLE", "WAIT"]).flatten ++
                  [curve_cmd ch] ++ [curve_cmd ch] ++ ["TRMD AUTO"]
           | .error e =>
              (curveasker ch avg s).1 = .error e ∧
              (curveasker ch avg s).2.writes =
                s.writes ++ ["CLSW"] ++
                  (List.replicate avg ["TRMD SINGLE", "WAIT"]).flatten ++
                  [curve_cmd ch] ++ [curve_cmd ch])) := by
  refine ⟨fun s => ⟨by simp, by simp, by simp, by simp⟩, ?_, ?_⟩
  · intro ch avg s v h
    simp [curveasker, query_binary_values, h]
  · intro ch avg s h
    rcases hr : s.results (s.counter + 1) with e | v <;>
      simp [curveasker, query_binary_values, h, hr]

/-- A VISA state whose binary queries always succeed. -/
def demo_visa_ok : VisaState :=
  { timeout := 180, queue := ["stale"], results := fun _ => .ok [7],
    counter := 0, writes := [] }

/-- A VISA state whose first binary query raises `ValueError` and whose
retry succeeds. -/
def demo_visa_err : VisaState :=
  { timeout := 180, queue := ["stale"], results := fun n =>
      if n = 0 then .error .valueError else .ok [7],
    counter := 0, writes := [] }

/-- Witness for `curveasker_retries_once_on_valueerror` at the two demo
VISA states. -/
theorem curveasker_retries_once_witness :
    (demo_visa_ok.results demo_visa_ok.counter = .ok [7] ∧
      ((curveasker 1 2 demo_visa_ok).1 = .ok [7] ∧
       (curveasker 1 2 demo_visa_ok).2.counter = demo_visa_ok.counter + 1 ∧
       (curveasker 1 2 demo_visa_ok).2.writes =
          demo_visa_ok.writes ++ ["CLSW"] ++
            (List.replicate 2 ["TRMD SINGLE", "WAIT"]).flatten ++
            [curve_cmd 1] ++ ["TRMD AUTO"])) ∧
    (demo_visa_err.results demo_visa_err.counter = .error .valueError ∧
      ((curveasker 1 2 demo_visa_err).2.counter = demo_visa_err.counter + 2 ∧
       (curveasker 1 2 demo_visa_err).2.queue = [] ∧
       (curveasker 1 2 demo_visa_err).2.timeout = demo_visa_err.timeout ∧
       (match demo_visa_err.results (demo_visa_err.counter + 1) with
        | .ok v =>
           (curveasker 1 2 demo_visa_err).1 = .ok v ∧
           (curveasker 1 2 demo_visa_err).2.writes =
             demo_visa_err.writes ++ ["CLSW"] ++
               (List.replicate 2 ["TRMD SINGLE", "WAIT"]).flatten ++
               [curve_cmd 1] ++ [curve_cmd 1] ++ ["TRMD AUTO"]
        | .error e =>
           (curveasker 1 2 demo_visa_err).1 = .error e ∧
           (curveasker 1 2 demo_visa_err).2.writes =
             demo_visa_err.writes ++ ["CLSW"] ++
               (List.replicate 2 ["TRMD SINGLE", "WAIT"]).flatten ++
               [curve_cmd 1] ++ [curve_cmd 1]))) :=
  ⟨⟨rfl, curveasker_retries_once_on_valueerror.2.1 1 2 demo_visa_ok [7] rfl⟩,
   ⟨rfl, curveasker_retries_once_on_valueerror.2.2 1 2 demo_visa_err rfl⟩⟩

/-! ## Demonstration states for the post-acquire claims -/

/-- A trivial stand-in for the scipy `firwin` coefficient generator. -/
def demo_firwin : ℕ → ℝ → List ℝ := fun _ _ => []

/-- An `HD_Samples_Controller` post-`pre_start_capture` state on a
hypothetical 14-bit board with the window filter, one demodulation
frequency and zero integration delay/time. -/
noncomputable def hd_demo_base : HDAcqState :=
  { samples_per_record := 1, sample_rate := 2, demod_freq_params := [some 1],
    filterTy := 0, numtaps := 3, int_time := some 0, int_delay := some 0,
    chan_b := false, demod_length := 1, records_per_buffer := 1,
    buffers_per_acquisition := 1, bits_per_sample := 14,
    buffer := fun _ => 0, cosMat := fun _ _ => 1, sinMat := fun _ _ => 0 }

/-- C7 (the code at the claimed behaviour): for every averaged record,
when the board reports `bits_per_sample == 12` and the window filter is
selected, `HD_Samples_Controller._fit` does NOT complete: the call
`helpers.sample_to_volt_u12(rec, bps)` omits the third required
positional argument of `sample_to_volt_u12(raw_samples,
input_range_volts, bps)`, so `TypeError` is raised before the volts
conversion (compare the correct 3-argument calls in
`VNA_controller.py`). -/
theorem hd_fit_bps12_raises_typeerror (firwin : ℕ → ℝ → List ℝ)
    (c : HDAcqState) (rec : ℕ → ℕ)
    (h12 : c.bits_per_sample = 12) (hwin : c.filterTy = 0) :
    hd_fit firwin c rec = .error .typeError := by
  unfold hd_fit
  simp [h12]

/-- Witness for `hd_fit_bps12_raises_typeerror` on a concrete 12-bit
window-filter state. -/
theorem hd_fit_bps12_raises_typeerror_witness :
    ({ hd_demo_base with bits_per_sample := 12 } : HDAcqState).bits_per_sample = 12 ∧
    ({ hd_demo_base with bits_per_sample := 12 } : HDAcqState).filterTy = 0 ∧
    hd_fit demo_firwin { hd_demo_base with bits_per_sample := 12 } (fun _ => 0)
      = .error .typeError :=
  ⟨rfl, rfl, hd_fit_bps12_raises_typeerror demo_firwin
    { hd_demo_base with bits_per_sample := 12 } (fun _ => 0) rfl rfl⟩

/-- C5 (evaluating the code): `filter_ls` raises `NotImplementedError`
for every input; on a board with `bits_per_sample ≠ 12` (here 14) and
the window filter, `post_acquire` raises `NotImplementedError` when
`chan_b` is true and returns normally when `chan_b` is false; but on a
12-bit board with `chan_b` true it raises `TypeError` (from the
2-argument `sample_to_volt_u12` call in `_fit`) before the `chan_b`
check is ever reached — not `NotImplementedError` as the claim says. -/
theorem hd_post_acquire_chan_b_behaviour :
    (∀ (α : Type) (rec : α) (cutoff sample_rate : ℝ) (numtaps : ℕ),
        filter_ls_gen rec cutoff sample_rate numtaps
          = (.error .notImplementedError : Except PyErr α)) ∧
    (∀ (rec : ℕ → ℝ) (cutoff sample_rate : ℝ) (numtaps : ℕ),
        filter_ls rec cutoff sample_rate numtaps = .error .notImplementedError) ∧
    hd_post_acquire demo_firwin { hd_demo_base with chan_b := true }
      = .error .notImplementedError ∧
    exceptIsOk (hd_post_acquire demo_firwin hd_demo_base) = true ∧
    hd_post_acquire demo_firwin
        { hd_demo_base with bits_per_sample := 12, chan_b := true }
      = .error .typeError := by
  refine ⟨fun _ _ _ _ _ => rfl, fun _ _ _ _ => rfl, ?_, ?_, ?_⟩ <;> rfl

/-- An accumulated VNA buffer: one record of one sample on each channel
(channel A holds 32768, channel B holds 16). -/
def vna_demo_buffer : ℕ → ℚ := fun i => if i = 0 then 32768 else 16

/-- A VNA capture state for a given `bits_per_sample`. -/
def vna_demo_capture (bits : ℕ) : VNACapture :=
  { samples_per_record := 1, records_per_buffer := 1,
    buffers_per_acquisition := 1, bits_per_sample := bits,
    buffer := vna_demo_buffer }

/-- The demo Alazar instrument state: `channel_range1 = 2` volts. -/
def vna_demo_alazar : AlazarState :=
  { samples_per_record := 1, sample_rate := 2, records_per_buffer := 1,
    buffers_per_acquisition := 1, bits_per_sample := 16,
    channel_range1 := 2, channel_range2 := 2 }

/-- C6 (evaluating the code): in `VNA_Acquisition_Controller.post_acquire`
the `bits_per_sample == 16` and fall-through branches behave as claimed
(16-bit volts conversion with the instrument channel range, respectively
centered raw samples), but on a 12-bit board the call
`sample_to_volt_u12(recordA, ...)` applies `np.right_shift` to the
float64 averaged record and raises `TypeError` — and even with that
fixed, the separate `if bps == 16: ... else: ...` statement (not an
`elif`) would overwrite the 12-bit conversion with the centered raw
samples — so the claimed 12-bit conversion output is never returned. -/
theorem vna_post_acquire_bits_behaviour :
    vna_post_acquire (vna_demo_capture 12) vna_demo_alazar = .error .typeError ∧
    (vna_post_acquire (vna_demo_capture 16) vna_demo_alazar).map
        (fun p => (p.1 0, p.2 0))
      = .ok (sample_to_volt_u16 32768 2 16, sample_to_volt_u16 16 2 16) ∧
    sample_to_volt_u16 32768 2 16 = 2/65535 ∧
    (vna_post_acquire (vna_demo_capture 14) vna_demo_alazar).map
        (fun p => (p.1 0, p.2 0)) = .ok (0, 0) := by
  refine ⟨rfl, ?_, by norm_num [sample_to_volt_u16], ?_⟩
  · simp [vna_post_acquire, vna_demo_capture, vna_demo_alazar, vna_demo_buffer,
      number_of_channels, Finset.sum_range_one, Except.map]
  · simp [vna_post_acquire, vna_demo_capture, vna_demo_alazar, vna_demo_buffer,
      number_of_channels, np_mean_rat, Finset.sum_range_one, Except.map]

end Qcodes
